import Mathlib

/-!
Verification development for GoldSilver_News_App.py, a single-file scheduled
newsletter job: optional live price fetch, OpenAI content generation,
MailerLite campaign creation, content upload and send, orchestrated by main.

The Python source is shallowly embedded.  Outbound HTTP calls are modelled by
oracles: a record describing, per call site (and per retry attempt where the
call is wrapped by the retry decorator), the response status, whether the
request raised, and the payload fields the code inspects.  Each embedded
function returns its value together with the list of network-call events it
performed, so ordering claims (what was called before an error surfaced) are
provable.  Durations are rationals; the source default backoff_sec = 1.5 is
the rational 3/2.
-/

/-- Recipient of the campaign send action, mirroring the group_id /
single_email branches of send_campaign_to_group. -/
inductive SendTarget where
  | group (id : String)
  | single (email : String)
deriving DecidableEq, Repr

/-- One observable effect of the program.  The first six constructors are the
network call sites of the source.  stateCommit is the event a persisted
completion-state write would emit; the source contains no such write, and the
theorems prove it never occurs in any trace. -/
inductive Event where
  | priceFetch
  | openaiChat
  | campaignCreate
  | contentUploadPrimary
  | contentUploadFallback
  | sendAction (t : SendTarget)
  | stateCommit
deriving DecidableEq, Repr

/-- Coarse classification of events, used to characterise which stage of main
produced an event: 0 = price fetch, 1 = generation, 2 = campaign
creation/upload, 3 = send, 4 = state commit. -/
def evClass : Event → Nat
  | .priceFetch => 0
  | .openaiChat => 1
  | .campaignCreate => 2
  | .contentUploadPrimary => 2
  | .contentUploadFallback => 2
  | .sendAction _ => 3
  | .stateCommit => 4

def isSendEv : Event → Bool
  | .sendAction _ => true
  | _ => false

def isSingleSendEv : Event → Bool
  | .sendAction (.single _) => true
  | _ => false

def isCommitEv : Event → Bool
  | .stateCommit => true
  | _ => false

/-- Whether a trace contains a campaign send action. -/
def hasSend (tr : List Event) : Bool := tr.any isSendEv

/-- Whether a trace contains a completion-state write. -/
def hasCommit (tr : List Event) : Bool := tr.any isCommitEv

/-- The environment variables the embedded code reads (os.getenv yields None
for an unset variable).  Fields not inspected by any claim (SENDER_EMAIL,
SENDER_NAME, MODEL, METALS_API_URL) only feed request payloads that the
oracles abstract, so they are omitted. -/
structure Config where
  openai_api_key : Option String
  mailerlite_api_key : Option String
  mailerlite_group_id : Option String
  mailerlite_subscriber_email : Option String
  metals_api_key : Option String
deriving DecidableEq, Repr

/-- Python truthiness of an optional string: None and the empty string are
falsy, every other string is truthy. -/
def truthyOpt : Option String → Bool
  | none => false
  | some s => !(s == "")

/-- Python's a or b for the two optional id fields of the campaign-creation
response: a if a is truthy, else b. -/
def pyOrStr (a b : Option String) : Option String :=
  if truthyOpt a then a else b

/-- Message of requests raise_for_status for an error status. -/
def httpErrMsg (status : Nat) : String := "HTTPError " ++ toString status

/-! ## The retry decorator (source lines 82-97)

The wrapper calls f; on an exception it increments its attempt counter, and
once attempt >= max_attempts it re-raises, otherwise it sleeps
backoff_sec * attempt and loops.  retryFuel simulates the loop by structural
recursion on the number of still-allowed failures, which starts at
max_attempts - 1; the attempt argument counts the failures so far, so the
sleep before re-calling after the a-th call is backoff * (a + 1), exactly the
source's time.sleep(backoff_sec * attempt). -/

/-- Trace of one run of the retry wrapper: the final outcome (ok value or the
re-raised last exception), how many times the wrapped function was called,
the sleep durations between calls, and the concatenated network-call events
of every attempt. -/
structure RetryTrace (ε α : Type) where
  result : Except ε α
  attempts : Nat
  sleeps : List ℚ
  calls : List Event
deriving Repr

def retryFuel {ε α : Type} (f : Nat → Except ε α × List Event) (b : ℚ) :
    Nat → Nat → RetryTrace ε α
  | fuel, a =>
    match (f a).1 with
    | .ok v => ⟨.ok v, 1, [], (f a).2⟩
    | .error e =>
      match fuel with
      | 0 => ⟨.error e, 1, [], (f a).2⟩
      | fuel' + 1 =>
        let rest := retryFuel f b fuel' (a + 1)
        ⟨rest.result, rest.attempts + 1, b * ((a + 1 : Nat) : ℚ) :: rest.sleeps,
          (f a).2 ++ rest.calls⟩

/-- The retry decorator applied with a given max_attempts and backoff_sec; the
wrapped function's per-attempt behaviour is f (argument = number of failures
so far). -/
def retryRun {ε α : Type} (f : Nat → Except ε α × List Event)
    (maxAttempts : Nat) (b : ℚ) : RetryTrace ε α :=
  retryFuel f b (maxAttempts - 1) 0

theorem retryFuel_allfail {ε α : Type} (f : Nat → Except ε α × List Event) (b : ℚ)
    (hf : ∀ n, ((f n).1).isOk = false) :
    ∀ fuel a, (retryFuel f b fuel a).attempts = fuel + 1 ∧
      (retryFuel f b fuel a).result = (f (a + fuel)).1 ∧
      (retryFuel f b fuel a).sleeps =
        (List.range' (a + 1) fuel).map (fun j : Nat => b * (j : ℚ)) := by
  intro fuel
  induction fuel with
  | zero =>
    intro a
    have h := hf a
    rw [retryFuel]
    cases hfa : (f a).1 with
    | ok v => rw [hfa] at h; simp [Except.isOk, Except.toBool] at h
    | error e => simp [hfa]
  | succ fuel ih =>
    intro a
    have h := hf a
    rw [retryFuel]
    cases hfa : (f a).1 with
    | ok v => rw [hfa] at h; simp [Except.isOk, Except.toBool] at h
    | error e =>
      have hrest := ih (a + 1)
      have harith : a + 1 + fuel = a + (fuel + 1) := by omega
      simp only [hrest.1, hrest.2.1, hrest.2.2, List.range'_succ, List.map_cons, harith]
      simp

theorem chain_le_mul_range' (b : ℚ) (hb : 0 ≤ b) :
    ∀ (n s : Nat), List.Chain' (· ≤ ·) ((List.range' s n).map (fun j : Nat => b * (j : ℚ)))
  | 0, s => by simp
  | 1, s => by simp [List.range']
  | (n + 2), s => by
    have ih := chain_le_mul_range' b hb (n + 1) (s + 1)
    have hstep : b * ((s : ℚ)) ≤ b * (((s + 1 : Nat) : ℚ)) := by
      apply mul_le_mul_of_nonneg_left _ hb
      push_cast
      linarith
    simpa [List.range'_succ, List.chain'_cons] using
      And.intro hstep (by simpa [List.range'_succ] using ih)

/-- C3: when every attempt of a retry-wrapped call fails, the wrapper makes
exactly max_attempts attempts, sleeps the linearly increasing schedule
backoff_sec * attempt between them (non-decreasing for a non-negative
backoff), and re-raises the last attempt's error, which is the wrapper's own
result, never swallowed. -/
theorem retry_exhaustion_bound {ε α : Type} (f : Nat → Except ε α × List Event)
    (m : Nat) (b : ℚ) (hm : 1 ≤ m) (hb : 0 ≤ b)
    (hf : ∀ n, ((f n).1).isOk = false) :
    (retryRun f m b).attempts = m ∧
    (retryRun f m b).sleeps = (List.range' 1 (m - 1)).map (fun j : Nat => b * (j : ℚ)) ∧
    List.Chain' (· ≤ ·) (retryRun f m b).sleeps ∧
    (retryRun f m b).result = (f (m - 1)).1 ∧
    ((retryRun f m b).result).isOk = false := by
  have h := retryFuel_allfail f b hf (m - 1) 0
  unfold retryRun
  refine ⟨?_, ?_, ?_, ?_, ?_⟩
  · rw [h.1]; omega
  · simpa using h.2.2
  · rw [h.2.2]; exact chain_le_mul_range' b hb (m - 1) 1
  · simpa using h.2.1
  · have heq := h.2.1
    simp only [Nat.zero_add] at heq
    rw [heq]; exact hf (m - 1)

/-- Witness for C3 at the source's configuration max_attempts = 3,
backoff_sec = 1.5, against a wrapped call that always fails. -/
theorem retry_exhaustion_bound_witness :
    (retryRun (fun _ => ((Except.error "429" : Except String String), [])) 3 (3 / 2)).attempts = 3 ∧
    (retryRun (fun _ => ((Except.error "429" : Except String String), [])) 3 (3 / 2)).sleeps =
      [3 / 2, 3] := by
  have h := retry_exhaustion_bound
    (fun _ => ((Except.error "429" : Except String String), [])) 3 (3 / 2)
    (by omega) (by norm_num) (fun n => rfl)
  refine ⟨h.1, ?_⟩
  rw [h.2.1]
  norm_num [List.range']

/-! ## Values and the price fetch (source lines 100-123)

fetch_live_prices catches every exception of its request/parse block and
returns None, so the retry wrapper around it never observes a failure. -/

/-- A Python value as far as the embedded code renders one: None, an int, a
string, or the provider's raw JSON blob (stored under the dict key "raw" and
always filtered out before rendering, so its own repr never appears). -/
inductive PyVal where
  | pyNone
  | pyInt (n : Int)
  | pyStr (s : String)
  | pyRawData
deriving DecidableEq, Repr

/-- Python str() of a value as used by the f-string rendering. -/
def pyStrOf : PyVal → String
  | .pyNone => "None"
  | .pyInt n => toString n
  | .pyStr s => s
  | .pyRawData => "raw"

/-- The price dict: key-value pairs in insertion order. -/
abbrev Prices := List (String × PyVal)

/-- Oracle for the metals-API GET call inside fetch_live_prices: whether
requests.get raised, the response status, whether r.json() raised, whether the
parsed JSON has a rates key, and the values of rates.get for XAU and XAG
(pyNone when the symbol is absent). -/
structure PriceResp where
  getExn : Bool
  status : Nat
  jsonExn : Bool
  hasRates : Bool
  xau : PyVal
  xag : PyVal
deriving DecidableEq, Repr

/-- One call of fetch_live_prices (source lines 101-123): skip without a
network call when METALS_API_KEY is unset; otherwise perform the GET and map
every exception path (request error, raise_for_status on status >= 400, JSON
parse error) to None; a rates key yields the gold/silver dict, anything else
the raw-only dict. -/
def fetch_live_prices_once (cfg : Config) (r : PriceResp) : Option Prices × List Event :=
  if !truthyOpt cfg.metals_api_key then (none, [])
  else if r.getExn then (none, [.priceFetch])
  else if 400 ≤ r.status then (none, [.priceFetch])
  else if r.jsonExn then (none, [.priceFetch])
  else if r.hasRates then
    (some [("gold_usd", r.xau), ("silver_usd", r.xag), ("raw", .pyRawData)], [.priceFetch])
  else (some [("raw", .pyRawData)], [.priceFetch])

/-- The price_text line join of the dedented block (source line 147): every
non-raw key rendered as key colon space str(value), joined by newlines. -/
def priceText (live : Prices) : String :=
  String.intercalate "\n"
    ((live.filter (fun kv => !(kv.1 == "raw"))).map (fun kv => kv.1 ++ ": " ++ pyStrOf kv.2))

/-- The user message construction of source lines 144-151: the fixed Hungarian
request, augmented with the price lines only when live_prices is truthy (a
non-empty dict). -/
def buildUserMsg (live : Option Prices) : String :=
  let base := "Kérlek készíts napi arany/ezüst összefoglalót magyarul."
  match live with
  | none => base
  | some l =>
    if l = [] then base
    else
      base ++ "\nLive árfolyam adatok (USD):\n" ++ priceText l ++
        "\nKérlek, használd ezeket az értékeket, és tüntesd fel, hogy honnan származnak."

/-! ## One generation attempt (source lines 126-133 and the OpenAI call)

The body of generate_newsletter_html that is actually inside the function is
the credential check of lines 132-133; the request, parse and wrap code of
lines 145-184 sits dedented at module scope (settled under the C2 theorems),
so the outcome of the HTTP call of an attempt is supplied by the oracle, and
the plain-text wrap of lines 176-179 is modelled standalone as wrapPlainText
below. -/

/-- Oracle for one OpenAI chat-completions POST: whether requests.post raised,
the status, and the content string extracted from the response. -/
structure GenResp where
  exn : Bool
  status : Nat
  content : String
deriving DecidableEq, Repr

/-- One attempt of the generation stage: raise RuntimeError without any
network call when OPENAI_API_KEY is unset (source lines 132-133), otherwise
perform the POST; a request exception or an error status raises, a success
yields the content. -/
def generate_attempt (cfg : Config) (_live : Option Prices) (r : GenResp) :
    Except String String × List Event :=
  if !truthyOpt cfg.openai_api_key then (.error "OPENAI_API_KEY not set", [])
  else if r.exn then (.error "request exception", [.openaiChat])
  else if 400 ≤ r.status then (.error (httpErrMsg r.status), [.openaiChat])
  else (.ok r.content, [.openaiChat])

/-! ## Campaign creation and content upload (source lines 187-228) -/

/-- Oracle for the campaign-creation POST: raised flag, status, and the two id
fields the code probes in the JSON, data.id and top-level id (none when
absent; a present empty string is falsy for the subsequent check). -/
structure CreateResp where
  exn : Bool
  status : Nat
  dataId : Option String
  topId : Option String
deriving DecidableEq, Repr

/-- Oracle for one content-upload PUT. -/
structure UploadResp where
  exn : Bool
  status : Nat
deriving DecidableEq, Repr

/-- Oracle for one attempt of create_mailerlite_campaign: the creation POST,
the Connect-style upload PUT and the classic v2 fallback PUT. -/
structure CampaignOracle where
  create : CreateResp
  uploadPrimary : UploadResp
  uploadFallback : UploadResp
deriving DecidableEq, Repr

/-- Failure condition of the primary upload try-block (source lines 216-220):
an exception from requests.put, or a status outside (200, 201, 204) on which
raise_for_status actually raises, i.e. a status of at least 400.  A non-2xx
status below 400 falls through raise_for_status without raising and is
accepted. -/
def uploadPrimaryFails (u : UploadResp) : Bool :=
  u.exn || (!(u.status == 200 || u.status == 201 || u.status == 204) && decide (400 ≤ u.status))

/-- Failure condition of the fallback upload (source lines 223-225):
exception, or raise_for_status on a status of at least 400. -/
def uploadFallbackFails (u : UploadResp) : Bool :=
  u.exn || decide (400 ≤ u.status)

/-- One attempt of create_mailerlite_campaign (source lines 188-228): raise
without a network call when MAILERLITE_API_KEY is unset; POST the campaign;
extract the id as data.id or id with Python or-semantics, raising when the
result is falsy; then upload content, falling back to the classic v2 endpoint
exactly once when the primary shape fails. -/
def create_mailerlite_campaign (cfg : Config) (_subject _html : String)
    (o : CampaignOracle) : Except String String × List Event :=
  if !truthyOpt cfg.mailerlite_api_key then (.error "MAILERLITE_API_KEY not set", [])
  else if o.create.exn then (.error "request exception", [.campaignCreate])
  else if 400 ≤ o.create.status then (.error (httpErrMsg o.create.status), [.campaignCreate])
  else
    let cid? := pyOrStr o.create.dataId o.create.topId
    if !truthyOpt cid? then
      (.error "Could not obtain campaign ID from MailerLite response", [.campaignCreate])
    else
      let cid := cid?.getD ""
      if uploadPrimaryFails o.uploadPrimary then
        if uploadFallbackFails o.uploadFallback then
          (.error "content upload failed",
            [.campaignCreate, .contentUploadPrimary, .contentUploadFallback])
        else
          (.ok cid, [.campaignCreate, .contentUploadPrimary, .contentUploadFallback])
      else (.ok cid, [.campaignCreate, .contentUploadPrimary])

/-! ## Sending (source lines 231-254) -/

/-- Oracle for one send POST: raised flag, status, and the JSON body returned
on success. -/
structure SendResp where
  exn : Bool
  status : Nat
  body : String
deriving DecidableEq, Repr

/-- One attempt of send_campaign_to_group (source lines 232-254): a truthy
group_id sends to the group endpoint, else a truthy single_email posts the
emails body to the same actions/send endpoint, else RuntimeError before any
network call.  Either branch performs exactly one POST, with no alternate
endpoint shape on failure. -/
def send_campaign_to_group (cfg : Config) (_campaignId : String)
    (groupId : Option String) (singleEmail : Option String) (r : SendResp) :
    Except String String × List Event :=
  let _ := cfg
  if truthyOpt groupId then
    let ev := Event.sendAction (.group (groupId.getD ""))
    if r.exn then (.error "request exception", [ev])
    else if 400 ≤ r.status then (.error (httpErrMsg r.status), [ev])
    else (.ok r.body, [ev])
  else if truthyOpt singleEmail then
    let ev := Event.sendAction (.single (singleEmail.getD ""))
    if r.exn then (.error "request exception", [ev])
    else if 400 ≤ r.status then (.error (httpErrMsg r.status), [ev])
    else (.ok r.body, [ev])
  else (.error "Neither group_id nor single_email provided for send", [])

/-! ## The runner main (source lines 257-298)

Each retry-decorated callee is driven through retryRun with the source's
max_attempts = 3 and the default backoff_sec = 1.5.  The oracle gives the
per-attempt responses of every call site.  main returns its terminal outcome,
the concatenated network-call events, and the error-level log messages it
emitted; there is no idempotency state: main neither reads nor writes any
persisted record, and no branch emits Event.stateCommit. -/

/-- Per-call-site, per-attempt responses of the external services for one
invocation of main. -/
structure MainOracle where
  price : PriceResp
  gen : Nat → GenResp
  camp : Nat → CampaignOracle
  send : Nat → SendResp

/-- Terminal outcome of main.  The source has no skip outcome: every run that
is not a stage failure runs the pipeline to the final success log. -/
inductive MainResult where
  | finished
  | genFailed
  | campaignFailed
  | noRecipient
  | sendFailed
deriving DecidableEq, Repr

/-- What one invocation of main did: its outcome, the network calls in order,
and the error-level log lines. -/
structure MainRun where
  result : MainResult
  calls : List Event
  errLogs : List String
deriving DecidableEq, Repr

/-- The source's retry configuration: max_attempts = 3 on every decorated
function, backoff_sec defaulting to 1.5. -/
def sourceBackoff : ℚ := 3 / 2

/-- The price-fetch stage of main: the retry wrapper around
fetch_live_prices, whose attempts never raise. -/
def fetchStage (cfg : Config) (o : MainOracle) : RetryTrace String (Option Prices) :=
  retryRun
    (fun _ => ((Except.ok (fetch_live_prices_once cfg o.price).1 : Except String (Option Prices)),
      (fetch_live_prices_once cfg o.price).2)) 3 sourceBackoff

/-- The live_prices value main passes on: the stage result, or None had the
stage raised (source lines 261-265). -/
def livePricesOf (cfg : Config) (o : MainOracle) : Option Prices :=
  match (fetchStage cfg o).result with
  | .ok v => v
  | .error _ => none

/-- The generation stage of main: retry around generate_newsletter_html. -/
def genStage (cfg : Config) (o : MainOracle) : RetryTrace String String :=
  retryRun (fun n => generate_attempt cfg (livePricesOf cfg o) (o.gen n)) 3 sourceBackoff

/-- The campaign subject of source line 274. -/
def subjectLine : String := "Arany & Ezüst heti összefoglaló"

/-- The campaign-creation stage of main: retry around
create_mailerlite_campaign. -/
def campStage (cfg : Config) (o : MainOracle) (html : String) : RetryTrace String String :=
  retryRun (fun n => create_mailerlite_campaign cfg subjectLine html (o.camp n)) 3 sourceBackoff

/-- The send stage for the group branch of main (source line 286). -/
def sendStageGroup (cfg : Config) (o : MainOracle) (campId : String) :
    RetryTrace String String :=
  retryRun (fun n => send_campaign_to_group cfg campId cfg.mailerlite_group_id none (o.send n))
    3 sourceBackoff

/-- The send stage for the single-email branch of main (source line 289). -/
def sendStageSingle (cfg : Config) (o : MainOracle) (campId : String) :
    RetryTrace String String :=
  retryRun
    (fun n => send_campaign_to_group cfg campId none cfg.mailerlite_subscriber_email (o.send n))
    3 sourceBackoff

namespace App

/-- main (source lines 257-298): fetch prices (failures absorbed), generate
content (failure logs and returns), create the campaign (failure logs and
returns), resolve the recipient with the group id taking precedence over the
single email (neither configured logs and returns), send (failure logs and
returns), then log success.  Every branch returns a value; no branch raises,
and none writes any completion state. -/
def main (cfg : Config) (o : MainOracle) : MainRun :=
  let fr := fetchStage cfg o
  let g := genStage cfg o
  match g.result with
  | .error e => ⟨.genFailed, fr.calls ++ g.calls, ["OpenAI generation failed: " ++ e]⟩
  | .ok html =>
    let c := campStage cfg o html
    match c.result with
    | .error e => ⟨.campaignFailed, fr.calls ++ g.calls ++ c.calls,
        ["Failed to create campaign: " ++ e]⟩
    | .ok campId =>
      if truthyOpt cfg.mailerlite_group_id then
        let s := sendStageGroup cfg o campId
        match s.result with
        | .error e => ⟨.sendFailed, fr.calls ++ g.calls ++ c.calls ++ s.calls,
            ["Failed to send campaign: " ++ e]⟩
        | .ok _ => ⟨.finished, fr.calls ++ g.calls ++ c.calls ++ s.calls, []⟩
      else if truthyOpt cfg.mailerlite_subscriber_email then
        let s := sendStageSingle cfg o campId
        match s.result with
        | .error e => ⟨.sendFailed, fr.calls ++ g.calls ++ c.calls ++ s.calls,
            ["Failed to send campaign: " ++ e]⟩
        | .ok _ => ⟨.finished, fr.calls ++ g.calls ++ c.calls ++ s.calls, []⟩
      else
        ⟨.noRecipient, fr.calls ++ g.calls ++ c.calls,
          ["No recipient configured: set MAILERLITE_GROUP_ID or MAILERLITE_SUBSCRIBER_EMAIL"]⟩

end App

/-! ## Trace lemmas -/

theorem retryFuel_calls_pred {ε α : Type} (f : Nat → Except ε α × List Event) (b : ℚ)
    (P : Event → Prop) (hf : ∀ n e, e ∈ (f n).2 → P e) :
    ∀ fuel a e, e ∈ (retryFuel f b fuel a).calls → P e := by
  intro fuel
  induction fuel with
  | zero =>
    intro a e he
    rw [retryFuel] at he
    cases hfa : (f a).1 <;> rw [hfa] at he <;> exact hf a e he
  | succ fuel ih =>
    intro a e he
    rw [retryFuel] at he
    cases hfa : (f a).1 with
    | ok v => rw [hfa] at he; exact hf a e he
    | error er =>
      rw [hfa] at he
      simp only [List.mem_append] at he
      rcases he with he | he
      · exact hf a e he
      · exact ih (a + 1) e he

theorem retryFuel_hasSend {ε α : Type} (f : Nat → Except ε α × List Event) (b : ℚ)
    (fuel a : Nat) (h : hasSend (f a).2 = true) :
    hasSend (retryFuel f b fuel a).calls = true := by
  rw [retryFuel]
  cases hfa : (f a).1 with
  | ok v => exact h
  | error e =>
    cases fuel with
    | zero => exact h
    | succ fuel' => simp only [hasSend, List.any_append] at *; simp [h]


theorem retryFuel_ok_attempt {ε α : Type} (f : Nat → Except ε α × List Event) (b : ℚ) :
    ∀ fuel a v, (retryFuel f b fuel a).result = .ok v →
      ∃ n, (f n).1 = .ok v ∧ ∀ e, e ∈ (f n).2 → e ∈ (retryFuel f b fuel a).calls := by
  intro fuel
  induction fuel with
  | zero =>
    intro a v hv
    rw [retryFuel] at hv ⊢
    cases hfa : (f a).1 with
    | ok w =>
      rw [hfa] at hv
      simp only at hv
      refine ⟨a, ?_, ?_⟩
      · rw [hfa, hv]
      · intro e he; exact he
    | error er => rw [hfa] at hv; simp at hv
  | succ fuel ih =>
    intro a v hv
    rw [retryFuel] at hv ⊢
    cases hfa : (f a).1 with
    | ok w =>
      rw [hfa] at hv
      simp only at hv
      refine ⟨a, ?_, ?_⟩
      · rw [hfa, hv]
      · intro e he; exact he
    | error er =>
      rw [hfa] at hv
      simp only at hv
      obtain ⟨n, hn, hsub⟩ := ih (a + 1) v hv
      refine ⟨n, hn, ?_⟩
      intro e he
      show e ∈ (f a).2 ++ (retryFuel f b fuel (a + 1)).calls
      exact List.mem_append_right _ (hsub e he)

theorem fetch_once_calls (cfg : Config) (r : PriceResp) :
    ∀ e ∈ (fetch_live_prices_once cfg r).2, e = Event.priceFetch := by
  intro e he
  unfold fetch_live_prices_once at he
  split_ifs at he <;> simp_all

theorem gen_attempt_calls (cfg : Config) (l : Option Prices) (r : GenResp) :
    ∀ e ∈ (generate_attempt cfg l r).2, e = Event.openaiChat := by
  intro e he
  unfold generate_attempt at he
  split_ifs at he <;> simp_all

theorem create_trace_cases (cfg : Config) (s h : String) (co : CampaignOracle) :
    (create_mailerlite_campaign cfg s h co).2 = [] ∨
    (create_mailerlite_campaign cfg s h co).2 = [Event.campaignCreate] ∨
    (create_mailerlite_campaign cfg s h co).2 = [Event.campaignCreate, Event.contentUploadPrimary] ∨
    (create_mailerlite_campaign cfg s h co).2 =
      [Event.campaignCreate, Event.contentUploadPrimary, Event.contentUploadFallback] := by
  simp only [create_mailerlite_campaign]
  split_ifs <;> simp

theorem send_trace_cases (cfg : Config) (cid : String) (g se : Option String) (r : SendResp) :
    (send_campaign_to_group cfg cid g se r).2 = [] ∨
    (send_campaign_to_group cfg cid g se r).2 = [Event.sendAction (.group (g.getD ""))] ∨
    (send_campaign_to_group cfg cid g se r).2 = [Event.sendAction (.single (se.getD ""))] := by
  simp only [send_campaign_to_group]
  split_ifs <;> simp

theorem create_calls_class (cfg : Config) (s h : String) (co : CampaignOracle) :
    ∀ e ∈ (create_mailerlite_campaign cfg s h co).2, evClass e = 2 := by
  intro e he
  rcases create_trace_cases cfg s h co with hh | hh | hh | hh <;> rw [hh] at he <;>
    simp at he <;> (rcases he with rfl | rfl | rfl <;> rfl)

theorem send_calls_class (cfg : Config) (cid : String) (g se : Option String) (r : SendResp) :
    ∀ e ∈ (send_campaign_to_group cfg cid g se r).2, evClass e = 3 := by
  intro e he
  rcases send_trace_cases cfg cid g se r with hh | hh | hh <;> rw [hh] at he <;>
    simp at he <;> (subst he; rfl)

theorem send_no_single_of_none (cfg : Config) (cid : String) (g : Option String) (r : SendResp) :
    ∀ e ∈ (send_campaign_to_group cfg cid g none r).2, isSingleSendEv e = false := by
  intro e he
  simp only [send_campaign_to_group] at he
  split_ifs at he <;> simp_all [truthyOpt, isSingleSendEv]

theorem send_group_trace (cfg : Config) (cid : String) (g se : Option String) (r : SendResp)
    (hg : truthyOpt g = true) :
    (send_campaign_to_group cfg cid g se r).2 = [Event.sendAction (.group (g.getD ""))] := by
  simp only [send_campaign_to_group]
  split_ifs <;> simp_all

theorem send_single_trace (cfg : Config) (cid : String) (se : Option String) (r : SendResp)
    (hse : truthyOpt se = true) :
    (send_campaign_to_group cfg cid none se r).2 = [Event.sendAction (.single (se.getD ""))] := by
  simp only [send_campaign_to_group]
  split_ifs <;> simp_all [truthyOpt]

theorem create_ok_has_create (cfg : Config) (s h : String) (co : CampaignOracle)
    (hok : ((create_mailerlite_campaign cfg s h co).1).isOk = true) :
    Event.campaignCreate ∈ (create_mailerlite_campaign cfg s h co).2 := by
  simp only [create_mailerlite_campaign] at hok ⊢
  split_ifs at hok ⊢ <;> simp_all [Except.isOk, Except.toBool]

/-! ## Stage-level trace facts -/

theorem fetchStage_calls (cfg : Config) (o : MainOracle) :
    ∀ e ∈ (fetchStage cfg o).calls, evClass e = 0 := by
  unfold fetchStage retryRun
  apply retryFuel_calls_pred
  intro n e he
  have := fetch_once_calls cfg o.price e he
  rw [this]
  rfl

theorem genStage_calls (cfg : Config) (o : MainOracle) :
    ∀ e ∈ (genStage cfg o).calls, evClass e = 1 := by
  unfold genStage retryRun
  apply retryFuel_calls_pred
  intro n e he
  have := gen_attempt_calls cfg (livePricesOf cfg o) (o.gen n) e he
  rw [this]
  rfl

theorem campStage_calls (cfg : Config) (o : MainOracle) (html : String) :
    ∀ e ∈ (campStage cfg o html).calls, evClass e = 2 := by
  unfold campStage retryRun
  apply retryFuel_calls_pred
  intro n e he
  exact create_calls_class cfg subjectLine html (o.camp n) e he

theorem sendStageGroup_calls (cfg : Config) (o : MainOracle) (cid : String) :
    ∀ e ∈ (sendStageGroup cfg o cid).calls, evClass e = 3 := by
  unfold sendStageGroup retryRun
  apply retryFuel_calls_pred
  intro n e he
  exact send_calls_class cfg cid cfg.mailerlite_group_id none (o.send n) e he

theorem sendStageGroup_no_single (cfg : Config) (o : MainOracle) (cid : String) :
    ∀ e ∈ (sendStageGroup cfg o cid).calls, isSingleSendEv e = false := by
  unfold sendStageGroup retryRun
  apply retryFuel_calls_pred
  intro n e he
  exact send_no_single_of_none cfg cid cfg.mailerlite_group_id (o.send n) e he

theorem sendStageSingle_calls (cfg : Config) (o : MainOracle) (cid : String) :
    ∀ e ∈ (sendStageSingle cfg o cid).calls, evClass e = 3 := by
  unfold sendStageSingle retryRun
  apply retryFuel_calls_pred
  intro n e he
  exact send_calls_class cfg cid none cfg.mailerlite_subscriber_email (o.send n) e he

theorem hasSend_false_of (tr : List Event) (h : ∀ e ∈ tr, evClass e ≤ 2) :
    hasSend tr = false := by
  simp only [hasSend, List.any_eq_false]
  intro e he
  have := h e he
  cases e <;> simp_all [isSendEv, evClass]

theorem hasCommit_false_of (tr : List Event) (h : ∀ e ∈ tr, evClass e ≤ 3) :
    hasCommit tr = false := by
  simp only [hasCommit, List.any_eq_false]
  intro e he
  have := h e he
  cases e <;> simp_all [isCommitEv, evClass]

theorem hasSend_append_right (l1 l2 : List Event) (h : hasSend l2 = true) :
    hasSend (l1 ++ l2) = true := by
  simp only [hasSend, List.any_append] at *
  simp [h]

theorem hasSend_ne_nil (tr : List Event) (h : hasSend tr = true) : tr ≠ [] := by
  intro hnil
  rw [hnil] at h
  simp [hasSend] at h

theorem sendStageGroup_hasSend (cfg : Config) (o : MainOracle) (cid : String)
    (h1 : truthyOpt cfg.mailerlite_group_id = true) :
    hasSend (sendStageGroup cfg o cid).calls = true := by
  unfold sendStageGroup retryRun
  apply retryFuel_hasSend
  rw [send_group_trace cfg cid cfg.mailerlite_group_id none (o.send 0) h1]
  simp [hasSend, isSendEv]

theorem sendStageSingle_hasSend (cfg : Config) (o : MainOracle) (cid : String)
    (h2 : truthyOpt cfg.mailerlite_subscriber_email = true) :
    hasSend (sendStageSingle cfg o cid).calls = true := by
  unfold sendStageSingle retryRun
  apply retryFuel_hasSend
  rw [send_single_trace cfg cid cfg.mailerlite_subscriber_email (o.send 0) h2]
  simp [hasSend, isSendEv]

/-! ## Branch equations of main -/

theorem main_gen_error (cfg : Config) (o : MainOracle) (e : String)
    (hg : (genStage cfg o).result = .error e) :
    App.main cfg o = ⟨.genFailed, (fetchStage cfg o).calls ++ (genStage cfg o).calls,
      ["OpenAI generation failed: " ++ e]⟩ := by
  simp only [App.main, hg]

theorem main_camp_error (cfg : Config) (o : MainOracle) (html e : String)
    (hg : (genStage cfg o).result = .ok html)
    (hc : (campStage cfg o html).result = .error e) :
    App.main cfg o = ⟨.campaignFailed,
      (fetchStage cfg o).calls ++ (genStage cfg o).calls ++ (campStage cfg o html).calls,
      ["Failed to create campaign: " ++ e]⟩ := by
  simp only [App.main, hg, hc]

theorem main_no_recipient (cfg : Config) (o : MainOracle) (html cid : String)
    (hg : (genStage cfg o).result = .ok html)
    (hc : (campStage cfg o html).result = .ok cid)
    (h1 : truthyOpt cfg.mailerlite_group_id = false)
    (h2 : truthyOpt cfg.mailerlite_subscriber_email = false) :
    App.main cfg o = ⟨.noRecipient,
      (fetchStage cfg o).calls ++ (genStage cfg o).calls ++ (campStage cfg o html).calls,
      ["No recipient configured: set MAILERLITE_GROUP_ID or MAILERLITE_SUBSCRIBER_EMAIL"]⟩ := by
  simp only [App.main, hg, hc, h1, h2]
  simp

theorem main_group_send_ok (cfg : Config) (o : MainOracle) (html cid v : String)
    (hg : (genStage cfg o).result = .ok html)
    (hc : (campStage cfg o html).result = .ok cid)
    (h1 : truthyOpt cfg.mailerlite_group_id = true)
    (hs : (sendStageGroup cfg o cid).result = .ok v) :
    App.main cfg o = ⟨.finished,
      (fetchStage cfg o).calls ++ (genStage cfg o).calls ++ (campStage cfg o html).calls ++
        (sendStageGroup cfg o cid).calls, []⟩ := by
  simp only [App.main, hg, hc, h1, hs]
  simp

theorem main_group_send_error (cfg : Config) (o : MainOracle) (html cid e : String)
    (hg : (genStage cfg o).result = .ok html)
    (hc : (campStage cfg o html).result = .ok cid)
    (h1 : truthyOpt cfg.mailerlite_group_id = true)
    (hs : (sendStageGroup cfg o cid).result = .error e) :
    App.main cfg o = ⟨.sendFailed,
      (fetchStage cfg o).calls ++ (genStage cfg o).calls ++ (campStage cfg o html).calls ++
        (sendStageGroup cfg o cid).calls, ["Failed to send campaign: " ++ e]⟩ := by
  simp only [App.main, hg, hc, h1, hs]
  simp

theorem main_single_send_ok (cfg : Config) (o : MainOracle) (html cid v : String)
    (hg : (genStage cfg o).result = .ok html)
    (hc : (campStage cfg o html).result = .ok cid)
    (h1 : truthyOpt cfg.mailerlite_group_id = false)
    (h2 : truthyOpt cfg.mailerlite_subscriber_email = true)
    (hs : (sendStageSingle cfg o cid).result = .ok v) :
    App.main cfg o = ⟨.finished,
      (fetchStage cfg o).calls ++ (genStage cfg o).calls ++ (campStage cfg o html).calls ++
        (sendStageSingle cfg o cid).calls, []⟩ := by
  simp only [App.main, hg, hc, h1, h2, hs]
  simp

theorem main_single_send_error (cfg : Config) (o : MainOracle) (html cid e : String)
    (hg : (genStage cfg o).result = .ok html)
    (hc : (campStage cfg o html).result = .ok cid)
    (h1 : truthyOpt cfg.mailerlite_group_id = false)
    (h2 : truthyOpt cfg.mailerlite_subscriber_email = true)
    (hs : (sendStageSingle cfg o cid).result = .error e) :
    App.main cfg o = ⟨.sendFailed,
      (fetchStage cfg o).calls ++ (genStage cfg o).calls ++ (campStage cfg o html).calls ++
        (sendStageSingle cfg o cid).calls, ["Failed to send campaign: " ++ e]⟩ := by
  simp only [App.main, hg, hc, h1, h2, hs]
  simp

theorem class_le3_append (la lb : List Event)
    (ha : ∀ e ∈ la, evClass e ≤ 3) (hb : ∀ e ∈ lb, evClass e ≤ 3) :
    ∀ e ∈ la ++ lb, evClass e ≤ 3 := by
  intro e he
  rcases List.mem_append.mp he with h | h
  exacts [ha e h, hb e h]

theorem fetchStage_le3 (cfg : Config) (o : MainOracle) :
    ∀ e ∈ (fetchStage cfg o).calls, evClass e ≤ 3 := by
  intro e he; have := fetchStage_calls cfg o e he; omega

theorem genStage_le3 (cfg : Config) (o : MainOracle) :
    ∀ e ∈ (genStage cfg o).calls, evClass e ≤ 3 := by
  intro e he; have := genStage_calls cfg o e he; omega

theorem campStage_le3 (cfg : Config) (o : MainOracle) (html : String) :
    ∀ e ∈ (campStage cfg o html).calls, evClass e ≤ 3 := by
  intro e he; have := campStage_calls cfg o html e he; omega

theorem sendStageGroup_le3 (cfg : Config) (o : MainOracle) (cid : String) :
    ∀ e ∈ (sendStageGroup cfg o cid).calls, evClass e ≤ 3 := by
  intro e he; have := sendStageGroup_calls cfg o cid e he; omega

theorem sendStageSingle_le3 (cfg : Config) (o : MainOracle) (cid : String) :
    ∀ e ∈ (sendStageSingle cfg o cid).calls, evClass e ≤ 3 := by
  intro e he; have := sendStageSingle_calls cfg o cid e he; omega

theorem main_calls_class (cfg : Config) (o : MainOracle) :
    ∀ e ∈ (App.main cfg o).calls, evClass e ≤ 3 := by
  cases hg : (genStage cfg o).result with
  | error e =>
    rw [main_gen_error cfg o e hg]
    exact class_le3_append _ _ (fetchStage_le3 cfg o) (genStage_le3 cfg o)
  | ok html =>
    cases hc : (campStage cfg o html).result with
    | error e =>
      rw [main_camp_error cfg o html e hg hc]
      exact class_le3_append _ _
        (class_le3_append _ _ (fetchStage_le3 cfg o) (genStage_le3 cfg o))
        (campStage_le3 cfg o html)
    | ok cid =>
      by_cases h1 : truthyOpt cfg.mailerlite_group_id = true
      · cases hs : (sendStageGroup cfg o cid).result with
        | ok v =>
          rw [main_group_send_ok cfg o html cid v hg hc h1 hs]
          exact class_le3_append _ _
            (class_le3_append _ _
              (class_le3_append _ _ (fetchStage_le3 cfg o) (genStage_le3 cfg o))
              (campStage_le3 cfg o html))
            (sendStageGroup_le3 cfg o cid)
        | error e =>
          rw [main_group_send_error cfg o html cid e hg hc h1 hs]
          exact class_le3_append _ _
            (class_le3_append _ _
              (class_le3_append _ _ (fetchStage_le3 cfg o) (genStage_le3 cfg o))
              (campStage_le3 cfg o html))
            (sendStageGroup_le3 cfg o cid)
      · have h1' : truthyOpt cfg.mailerlite_group_id = false := by simpa using h1
        by_cases h2 : truthyOpt cfg.mailerlite_subscriber_email = true
        · cases hs : (sendStageSingle cfg o cid).result with
          | ok v =>
            rw [main_single_send_ok cfg o html cid v hg hc h1' h2 hs]
            exact class_le3_append _ _
              (class_le3_append _ _
                (class_le3_append _ _ (fetchStage_le3 cfg o) (genStage_le3 cfg o))
                (campStage_le3 cfg o html))
              (sendStageSingle_le3 cfg o cid)
          | error e =>
            rw [main_single_send_error cfg o html cid e hg hc h1' h2 hs]
            exact class_le3_append _ _
              (class_le3_append _ _
                (class_le3_append _ _ (fetchStage_le3 cfg o) (genStage_le3 cfg o))
                (campStage_le3 cfg o html))
              (sendStageSingle_le3 cfg o cid)
        · have h2' : truthyOpt cfg.mailerlite_subscriber_email = false := by simpa using h2
          rw [main_no_recipient cfg o html cid hg hc h1' h2']
          exact class_le3_append _ _
            (class_le3_append _ _ (fetchStage_le3 cfg o) (genStage_le3 cfg o))
            (campStage_le3 cfg o html)

theorem main_no_commit (cfg : Config) (o : MainOracle) :
    hasCommit (App.main cfg o).calls = false :=
  hasCommit_false_of _ (main_calls_class cfg o)

/-! ## Concrete configurations and oracles used by witnesses and
counterexamples -/

/-- A fully configured environment: every credential set, metals key present,
group id 123 for broadcast. -/
def cfgAllSet : Config := ⟨some "sk", some "ml", some "123", none, some "mk"⟩

/-- Environment with the OpenAI credential missing. -/
def cfgNoOpenAI : Config := ⟨none, some "ml", some "123", none, none⟩

/-- Environment with neither a group id nor a single fallback address. -/
def cfgNoRecipient : Config := ⟨some "sk", some "ml", none, none, none⟩

/-- Environment with the MailerLite credential missing. -/
def cfgNoML : Config := ⟨some "sk", none, some "123", none, none⟩

/-- A campaign oracle where everything succeeds and the creation response
carries data.id 42. -/
def coOk : CampaignOracle := ⟨⟨false, 200, some "42", none⟩, ⟨false, 200⟩, ⟨false, 200⟩⟩

/-- An oracle under which every external service succeeds. -/
def oAllOk : MainOracle :=
  ⟨⟨false, 200, false, true, .pyInt 2000, .pyInt 25⟩,
   fun _ => ⟨false, 200, "<p>c</p>"⟩,
   fun _ => coOk,
   fun _ => ⟨false, 200, "ok"⟩⟩

/-- A send response that always fails with a server error. -/
def sendFail : SendResp := ⟨false, 500, ""⟩

/-- A campaign oracle whose creation succeeds but whose primary content
upload fails with a server error while the fallback upload succeeds. -/
def coPrimaryFail : CampaignOracle := ⟨⟨false, 200, some "42", none⟩, ⟨false, 500⟩, ⟨false, 204⟩⟩

/-- A campaign oracle whose creation response carries no id in either
position. -/
def coNoId : CampaignOracle := ⟨⟨false, 200, none, none⟩, ⟨false, 200⟩, ⟨false, 200⟩⟩

/-- Oracle identical to oAllOk except that every campaign-creation attempt
returns a response without a campaign id. -/
def oNoId : MainOracle :=
  ⟨⟨false, 200, false, true, .pyInt 2000, .pyInt 25⟩,
   fun _ => ⟨false, 200, "<p>c</p>"⟩,
   fun _ => coNoId,
   fun _ => ⟨false, 200, "ok"⟩⟩

/-! ## C4 -/

/-- C4: whenever the generation stage fails (its retry-wrapped result is an
error, which covers both exhausted retries and the missing-credential raise),
main aborts with the genFailed outcome, its whole trace consists of price
fetch and generation calls only (so no campaign is created and nothing is
uploaded or sent), and no completion state is committed. -/
theorem generation_failure_aborts (cfg : Config) (o : MainOracle)
    (hg : ((genStage cfg o).result).isOk = false) :
    (App.main cfg o).result = MainResult.genFailed ∧
    ((App.main cfg o).calls).all (fun e => decide (evClass e ≤ 1)) = true ∧
    hasSend (App.main cfg o).calls = false ∧
    hasCommit (App.main cfg o).calls = false := by
  obtain ⟨e, he⟩ : ∃ e, (genStage cfg o).result = .error e := by
    cases h : (genStage cfg o).result with
    | ok v => rw [h] at hg; simp [Except.isOk, Except.toBool] at hg
    | error e => exact ⟨e, rfl⟩
  have hcalls : ∀ ev ∈ (App.main cfg o).calls, evClass ev ≤ 1 := by
    rw [main_gen_error cfg o e he]
    intro ev hev
    rcases List.mem_append.mp hev with h | h
    · have := fetchStage_calls cfg o ev h; omega
    · have := genStage_calls cfg o ev h; omega
  refine ⟨?_, ?_, ?_, main_no_commit cfg o⟩
  · rw [main_gen_error cfg o e he]
  · rw [List.all_eq_true]
    intro ev hev
    simpa using hcalls ev hev
  · exact hasSend_false_of _ (fun ev hev => by have := hcalls ev hev; omega)

/-- Witness for C4 at a configuration with the OpenAI credential missing, so
every generation attempt raises before its network call. -/
theorem generation_failure_aborts_witness :
    (App.main cfgNoOpenAI oAllOk).result = MainResult.genFailed ∧
    ((App.main cfgNoOpenAI oAllOk).calls).all (fun e => decide (evClass e ≤ 1)) = true ∧
    hasSend (App.main cfgNoOpenAI oAllOk).calls = false ∧
    hasCommit (App.main cfgNoOpenAI oAllOk).calls = false :=
  generation_failure_aborts cfgNoOpenAI oAllOk (by decide)

/-! ## C10 -/

/-- C10: for every configuration and oracle, main itself terminates with a
value rather than an exception: either it finishes with no error-level log,
or it stops at a failure outcome having logged exactly one terminating
message; and in no case does it commit any completion state.  Price-fetch
failures never produce a failure outcome because fetch_live_prices absorbs
them. -/
theorem stage_failures_terminate (cfg : Config) (o : MainOracle) :
    (((App.main cfg o).result = MainResult.finished ∧ (App.main cfg o).errLogs = []) ∨
     ((App.main cfg o).result ≠ MainResult.finished ∧ (App.main cfg o).errLogs.length = 1)) ∧
    hasCommit (App.main cfg o).calls = false := by
  refine ⟨?_, main_no_commit cfg o⟩
  cases hg : (genStage cfg o).result with
  | error e => right; rw [main_gen_error cfg o e hg]; exact ⟨by simp, rfl⟩
  | ok html =>
    cases hc : (campStage cfg o html).result with
    | error e => right; rw [main_camp_error cfg o html e hg hc]; exact ⟨by simp, rfl⟩
    | ok cid =>
      by_cases h1 : truthyOpt cfg.mailerlite_group_id = true
      · cases hs : (sendStageGroup cfg o cid).result with
        | ok v => left; rw [main_group_send_ok cfg o html cid v hg hc h1 hs]; exact ⟨rfl, rfl⟩
        | error e =>
          right; rw [main_group_send_error cfg o html cid e hg hc h1 hs]; exact ⟨by simp, rfl⟩
      · have h1' : truthyOpt cfg.mailerlite_group_id = false := by simpa using h1
        by_cases h2 : truthyOpt cfg.mailerlite_subscriber_email = true
        · cases hs : (sendStageSingle cfg o cid).result with
          | ok v =>
            left; rw [main_single_send_ok cfg o html cid v hg hc h1' h2 hs]; exact ⟨rfl, rfl⟩
          | error e =>
            right; rw [main_single_send_error cfg o html cid e hg hc h1' h2 hs]
            exact ⟨by simp, rfl⟩
        · have h2' : truthyOpt cfg.mailerlite_subscriber_email = false := by simpa using h2
          right; rw [main_no_recipient cfg o html cid hg hc h1' h2']; exact ⟨by simp, rfl⟩

/-! ## C1 -/

/-- C1, amended: the source persists no run state and contains no idempotency
gate, so a second same-day invocation is the same pure computation as the
first.  Whenever an invocation finishes successfully (the analogue of a
committed first run), the identical repeat invocation performs its network
calls again, including a send, instead of resolving to any skip outcome; and
nothing was committed that could gate it. -/
theorem rerun_no_skip (cfg : Config) (o : MainOracle)
    (h : (App.main cfg o).result = MainResult.finished) :
    hasSend (App.main cfg o).calls = true ∧
    (App.main cfg o).calls ≠ [] ∧
    hasCommit (App.main cfg o).calls = false := by
  refine ?_
  cases hg : (genStage cfg o).result with
  | error e => rw [main_gen_error cfg o e hg] at h; simp at h
  | ok html =>
    cases hc : (campStage cfg o html).result with
    | error e => rw [main_camp_error cfg o html e hg hc] at h; simp at h
    | ok cid =>
      by_cases h1 : truthyOpt cfg.mailerlite_group_id = true
      · cases hs : (sendStageGroup cfg o cid).result with
        | error e => rw [main_group_send_error cfg o html cid e hg hc h1 hs] at h; simp at h
        | ok v =>
          have hsend : hasSend (App.main cfg o).calls = true := by
            rw [main_group_send_ok cfg o html cid v hg hc h1 hs]
            exact hasSend_append_right _ _ (sendStageGroup_hasSend cfg o cid h1)
          exact ⟨hsend, hasSend_ne_nil _ hsend, main_no_commit cfg o⟩
      · have h1' : truthyOpt cfg.mailerlite_group_id = false := by simpa using h1
        by_cases h2 : truthyOpt cfg.mailerlite_subscriber_email = true
        · cases hs : (sendStageSingle cfg o cid).result with
          | error e =>
            rw [main_single_send_error cfg o html cid e hg hc h1' h2 hs] at h; simp at h
          | ok v =>
            have hsend : hasSend (App.main cfg o).calls = true := by
              rw [main_single_send_ok cfg o html cid v hg hc h1' h2 hs]
              exact hasSend_append_right _ _ (sendStageSingle_hasSend cfg o cid h2)
            exact ⟨hsend, hasSend_ne_nil _ hsend, main_no_commit cfg o⟩
        · have h2' : truthyOpt cfg.mailerlite_subscriber_email = false := by simpa using h2
          rw [main_no_recipient cfg o html cid hg hc h1' h2'] at h; simp at h

/-- Witness for C1 as amended, at the fully configured environment with an
all-success oracle. -/
theorem rerun_no_skip_witness :
    hasSend (App.main cfgAllSet oAllOk).calls = true ∧
    (App.main cfgAllSet oAllOk).calls ≠ [] ∧
    hasCommit (App.main cfgAllSet oAllOk).calls = false :=
  rerun_no_skip cfgAllSet oAllOk (by decide)

/-- Counterexample for C1 as stated: a first invocation that finishes
successfully (the code's analogue of reaching Committed), after which the
second same-day invocation, being the identical stateless computation,
repeats the very same trace: its first action is already a network call (the
price fetch) and it performs the send again, so it never resolves to any
skip outcome; indeed MainResult has no skip constructor because the source
has no such path. -/
theorem same_day_rerun_counterexample :
    App.main cfgAllSet oAllOk =
      ⟨.finished,
        [Event.priceFetch, Event.openaiChat, Event.campaignCreate, Event.contentUploadPrimary,
          Event.sendAction (.group "123")], []⟩ ∧
    (App.main cfgAllSet oAllOk).calls.head? = some Event.priceFetch := by
  constructor
  · decide
  · decide

/-! ## C5 -/

/-- C5, amended: the alternate-endpoint fallback exists only for the content
upload inside create_mailerlite_campaign.  When creation succeeded and the
primary upload fails (exception, or a status of at least 400 — a non-2xx
status below 400 is accepted, not retried), exactly one fallback attempt is
made and the operation succeeds exactly when the fallback succeeds.  The
campaign-creation POST and the send action have no alternate shape: one
invocation of send_campaign_to_group performs at most one network call. -/
theorem upload_fallback_only (cfg : Config) (co : CampaignOracle) (s h : String)
    (hk : truthyOpt cfg.mailerlite_api_key = true)
    (hc1 : co.create.exn = false) (hc2 : co.create.status < 400)
    (hid : truthyOpt (pyOrStr co.create.dataId co.create.topId) = true)
    (hp : uploadPrimaryFails co.uploadPrimary = true) :
    (((create_mailerlite_campaign cfg s h co).1).isOk = true ↔
      uploadFallbackFails co.uploadFallback = false) ∧
    (create_mailerlite_campaign cfg s h co).2 =
      [Event.campaignCreate, Event.contentUploadPrimary, Event.contentUploadFallback] ∧
    (∀ cid g se r, (send_campaign_to_group cfg cid g se r).2.length ≤ 1) := by
  have hst : ¬(400 ≤ co.create.status) := by omega
  refine ⟨?_, ?_, ?_⟩
  · simp only [create_mailerlite_campaign]
    simp only [hk, hc1, hst, hid, hp]
    by_cases hfb : uploadFallbackFails co.uploadFallback = true
    · simp [hfb, Except.isOk, Except.toBool]
    · have hfb' : uploadFallbackFails co.uploadFallback = false := by simpa using hfb
      simp [hfb', Except.isOk, Except.toBool]
  · simp only [create_mailerlite_campaign]
    simp only [hk, hc1, hst, hid, hp]
    by_cases hfb : uploadFallbackFails co.uploadFallback = true
    · simp [hfb]
    · have hfb' : uploadFallbackFails co.uploadFallback = false := by simpa using hfb
      simp [hfb']
  · intro cid g se r
    rcases send_trace_cases cfg cid g se r with hh | hh | hh <;> rw [hh] <;> simp

/-- Witness for C5 as amended: with the creation succeeding, the primary
upload failing with a 500 and the fallback succeeding with a 204, the
operation succeeds after exactly the three-call trace, and a failing send
performs a single call. -/
theorem upload_fallback_only_witness :
    (((create_mailerlite_campaign cfgAllSet "s" "h" coPrimaryFail).1).isOk = true ↔
      uploadFallbackFails coPrimaryFail.uploadFallback = false) ∧
    (create_mailerlite_campaign cfgAllSet "s" "h" coPrimaryFail).2 =
      [Event.campaignCreate, Event.contentUploadPrimary, Event.contentUploadFallback] ∧
    (send_campaign_to_group cfgAllSet "42" (some "123") none sendFail).2.length ≤ 1 := by
  have hth := upload_fallback_only cfgAllSet coPrimaryFail "s" "h"
    (by decide) (by decide) (by decide) (by decide) (by decide)
  exact ⟨hth.1, hth.2.1, hth.2.2 "42" (some "123") none sendFail⟩

/-- Counterexample for C5 as stated: the send action of a delivery fails on a
single rate-limited/erroring POST having performed exactly one network call —
no alternate endpoint or payload shape is ever tried for the send, so the
send operation fails without both shapes having failed. -/
theorem send_no_alternate_counterexample :
    ((send_campaign_to_group cfgAllSet "42" (some "123") none sendFail).1).isOk = false ∧
    (send_campaign_to_group cfgAllSet "42" (some "123") none sendFail).2 =
      [Event.sendAction (.group "123")] := by
  constructor
  · decide
  · decide

/-! ## C8 -/

/-- C8: when the campaign-creation response carries no usable campaign id
(data.id or id, Python-falsy either way), the attempt raises the
unexpected-response RuntimeError immediately after the creation call — no
content upload happens in that attempt — and when every attempt of the stage
sees such a response, main aborts with campaignFailed: nothing is sent and no
completion state is committed. -/
theorem missing_campaign_id_fatal (cfg : Config) (o : MainOracle) (s h : String)
    (co : CampaignOracle)
    (hk : truthyOpt cfg.mailerlite_api_key = true)
    (hc1 : co.create.exn = false) (hc2 : co.create.status < 400)
    (hid : truthyOpt (pyOrStr co.create.dataId co.create.topId) = false) :
    create_mailerlite_campaign cfg s h co =
      (Except.error "Could not obtain campaign ID from MailerLite response",
        [Event.campaignCreate]) ∧
    ((∀ n, o.camp n = co) → ∀ html, (genStage cfg o).result = .ok html →
      (App.main cfg o).result = MainResult.campaignFailed ∧
      hasSend (App.main cfg o).calls = false ∧
      hasCommit (App.main cfg o).calls = false) := by
  have hst : ¬(400 ≤ co.create.status) := by omega
  have hcreate : ∀ s' h', create_mailerlite_campaign cfg s' h' co =
      (Except.error "Could not obtain campaign ID from MailerLite response",
        [Event.campaignCreate]) := by
    intro s' h'
    simp only [create_mailerlite_campaign]
    simp [hk, hc1, hst, hid]
  refine ⟨hcreate s h, ?_⟩
  intro hn html hghtml
  have hattempt : ∀ n,
      ((create_mailerlite_campaign cfg subjectLine html (o.camp n)).1).isOk = false := by
    intro n
    rw [hn n, hcreate subjectLine html]
    rfl
  have hcamp : (campStage cfg o html).result =
      .error "Could not obtain campaign ID from MailerLite response" := by
    unfold campStage retryRun
    have h3 := retryFuel_allfail
      (fun n => create_mailerlite_campaign cfg subjectLine html (o.camp n))
      sourceBackoff hattempt (3 - 1) 0
    rw [h3.2.1, hn (0 + (3 - 1)), hcreate subjectLine html]
  have hcalls : ∀ ev ∈ (App.main cfg o).calls, evClass ev ≤ 2 := by
    rw [main_camp_error cfg o html _ hghtml hcamp]
    intro ev hev
    rcases List.mem_append.mp hev with hev | hev
    · rcases List.mem_append.mp hev with hev | hev
      · have := fetchStage_calls cfg o ev hev; omega
      · have := genStage_calls cfg o ev hev; omega
    · have := campStage_calls cfg o html ev hev; omega
  refine ⟨?_, hasSend_false_of _ hcalls, main_no_commit cfg o⟩
  rw [main_camp_error cfg o html _ hghtml hcamp]

/-- Witness for C8: a creation response with both id fields absent makes the
attempt fail with the unexpected-response error and the whole run abort. -/
theorem missing_campaign_id_fatal_witness :
    create_mailerlite_campaign cfgAllSet "s" "h" coNoId =
      (Except.error "Could not obtain campaign ID from MailerLite response",
        [Event.campaignCreate]) ∧
    ((App.main cfgAllSet oNoId).result = MainResult.campaignFailed ∧
      hasSend (App.main cfgAllSet oNoId).calls = false ∧
      hasCommit (App.main cfgAllSet oNoId).calls = false) := by
  have hth := missing_campaign_id_fatal cfgAllSet oNoId "s" "h" coNoId
    (by decide) (by decide) (by decide) (by decide)
  exact ⟨hth.1, hth.2 (fun n => rfl) "<p>c</p>" (by rfl)⟩

theorem not_single_of_le2 (e : Event) (h : evClass e ≤ 2) : isSingleSendEv e = false := by
  cases e <;> simp_all [evClass, isSingleSendEv]

/-! ## C6 -/

/-- C6, amended: a missing MailerLite credential raises before any MailerLite
network call of the campaign stage (fatal to the run via the campaignFailed
path), and the group id always takes precedence over the single fallback
address (a run with a truthy group id never performs a single-recipient
send).  But a missing recipient target is not surfaced before any network
call: it is detected only in main's send dispatch, after campaign creation
and content upload have already called the provider; the run then aborts with
noRecipient and nothing is sent. -/
theorem config_error_handling (cfg : Config) (o : MainOracle) :
    (truthyOpt cfg.mailerlite_api_key = false → ∀ s h co,
      create_mailerlite_campaign cfg s h co = (.error "MAILERLITE_API_KEY not set", [])) ∧
    (truthyOpt cfg.mailerlite_group_id = true →
      ((App.main cfg o).calls).all (fun e => !isSingleSendEv e) = true) ∧
    (∀ html cid, truthyOpt cfg.mailerlite_group_id = false →
      truthyOpt cfg.mailerlite_subscriber_email = false →
      (genStage cfg o).result = .ok html → (campStage cfg o html).result = .ok cid →
      (App.main cfg o).result = MainResult.noRecipient ∧
      Event.campaignCreate ∈ (App.main cfg o).calls ∧
      hasSend (App.main cfg o).calls = false) := by
  refine ⟨?_, ?_, ?_⟩
  · intro hk s h co
    simp only [create_mailerlite_campaign]
    simp [hk]
  · intro h1
    rw [List.all_eq_true]
    intro ev hev
    have hfalse : isSingleSendEv ev = false := by
      cases hg : (genStage cfg o).result with
      | error e =>
        rw [main_gen_error cfg o e hg] at hev
        rcases List.mem_append.mp hev with h | h
        · exact not_single_of_le2 ev (by have := fetchStage_calls cfg o ev h; omega)
        · exact not_single_of_le2 ev (by have := genStage_calls cfg o ev h; omega)
      | ok html =>
        cases hc : (campStage cfg o html).result with
        | error e =>
          rw [main_camp_error cfg o html e hg hc] at hev
          rcases List.mem_append.mp hev with h | h
          · rcases List.mem_append.mp h with h | h
            · exact not_single_of_le2 ev (by have := fetchStage_calls cfg o ev h; omega)
            · exact not_single_of_le2 ev (by have := genStage_calls cfg o ev h; omega)
          · exact not_single_of_le2 ev (by have := campStage_calls cfg o html ev h; omega)
        | ok cid =>
          cases hs : (sendStageGroup cfg o cid).result with
          | ok v =>
            rw [main_group_send_ok cfg o html cid v hg hc h1 hs] at hev
            rcases List.mem_append.mp hev with h | h
            · rcases List.mem_append.mp h with h | h
              · rcases List.mem_append.mp h with h | h
                · exact not_single_of_le2 ev (by have := fetchStage_calls cfg o ev h; omega)
                · exact not_single_of_le2 ev (by have := genStage_calls cfg o ev h; omega)
              · exact not_single_of_le2 ev (by have := campStage_calls cfg o html ev h; omega)
            · exact sendStageGroup_no_single cfg o cid ev h
          | error e =>
            rw [main_group_send_error cfg o html cid e hg hc h1 hs] at hev
            rcases List.mem_append.mp hev with h | h
            · rcases List.mem_append.mp h with h | h
              · rcases List.mem_append.mp h with h | h
                · exact not_single_of_le2 ev (by have := fetchStage_calls cfg o ev h; omega)
                · exact not_single_of_le2 ev (by have := genStage_calls cfg o ev h; omega)
              · exact not_single_of_le2 ev (by have := campStage_calls cfg o html ev h; omega)
            · exact sendStageGroup_no_single cfg o cid ev h
    simp [hfalse]
  · intro html cid h1 h2 hg hc
    have hmem : Event.campaignCreate ∈ (campStage cfg o html).calls := by
      unfold campStage retryRun at hc ⊢
      obtain ⟨n, hok, hsub⟩ := retryFuel_ok_attempt _ _ _ _ _ hc
      refine hsub _ (create_ok_has_create cfg subjectLine html (o.camp n) ?_)
      rw [hok]
      rfl
    have hcalls : ∀ ev ∈ (App.main cfg o).calls, evClass ev ≤ 2 := by
      rw [main_no_recipient cfg o html cid hg hc h1 h2]
      intro ev hev
      rcases List.mem_append.mp hev with hev | hev
      · rcases List.mem_append.mp hev with hev | hev
        · have := fetchStage_calls cfg o ev hev; omega
        · have := genStage_calls cfg o ev hev; omega
      · have := campStage_calls cfg o html ev hev; omega
    refine ⟨?_, ?_, hasSend_false_of _ hcalls⟩
    · rw [main_no_recipient cfg o html cid hg hc h1 h2]
    · rw [main_no_recipient cfg o html cid hg hc h1 h2]
      exact List.mem_append_right _ hmem

/-- Witness for C6 as amended, across its three parts: a missing MailerLite
key fails the campaign attempt without any network call; a configured group
id means the full run has no single-recipient send; a run with no recipient
aborts at noRecipient having already created the campaign. -/
theorem config_error_handling_witness :
    create_mailerlite_campaign cfgNoML "s" "h" coOk =
      (Except.error "MAILERLITE_API_KEY not set", []) ∧
    ((App.main cfgAllSet oAllOk).calls).all (fun e => !isSingleSendEv e) = true ∧
    ((App.main cfgNoRecipient oAllOk).result = MainResult.noRecipient ∧
      Event.campaignCreate ∈ (App.main cfgNoRecipient oAllOk).calls ∧
      hasSend (App.main cfgNoRecipient oAllOk).calls = false) := by
  refine ⟨(config_error_handling cfgNoML oAllOk).1 (by decide) "s" "h" coOk,
    (config_error_handling cfgAllSet oAllOk).2.1 (by decide),
    (config_error_handling cfgNoRecipient oAllOk).2.2 "<p>c</p>" "42"
      (by decide) (by decide) (by rfl) (by rfl)⟩

/-- Counterexample for C6 as stated: with no recipient configured and every
provider succeeding, the configuration error surfaces only after the
campaign-creation and content-upload network calls — the trace already
contains the campaignCreate call when the noRecipient error is logged, so the
error is not surfaced before any network call. -/
theorem recipient_error_after_network_counterexample :
    App.main cfgNoRecipient oAllOk =
      ⟨.noRecipient, [Event.openaiChat, Event.campaignCreate, Event.contentUploadPrimary],
        ["No recipient configured: set MAILERLITE_GROUP_ID or MAILERLITE_SUBSCRIBER_EMAIL"]⟩ ∧
    Event.campaignCreate ∈ (App.main cfgNoRecipient oAllOk).calls := by
  constructor
  · decide
  · decide

/-! ## Substring containment, for reasoning about rendered text -/

def listStarts : List Char → List Char → Bool
  | [], _ => true
  | _ :: _, [] => false
  | p :: ps, c :: cs => p == c && listStarts ps cs

def listHasSub : List Char → List Char → Bool
  | [], pat => pat == []
  | c :: cs, pat => listStarts pat (c :: cs) || listHasSub cs pat

/-- Whether pat occurs as a contiguous substring of s. -/
def strContainsSub (s pat : String) : Bool := listHasSub s.toList pat.toList

/-! ## C7 -/

/-- A price response on which the provider call raises. -/
def priceRespRaise : PriceResp := ⟨true, 0, false, false, .pyNone, .pyNone⟩

/-- C7, amended: when the metals key is set and the provider call fails in
any of its ways (the GET raises, an error status makes raise_for_status
raise, or the JSON parse raises), fetch_live_prices absorbs the exception and
returns None after its one network call — the stage never raises, so the run
continues.  With the None snapshot the user-message construction simply omits
the price block: the rendered text is the bare request and contains no "N/A"
placeholder (the source has no such placeholder anywhere; a null price field
would render via Python str() as "None"). -/
theorem price_fetch_absorbs (cfg : Config) (r : PriceResp)
    (hk : truthyOpt cfg.metals_api_key = true)
    (hfail : r.getExn = true ∨ 400 ≤ r.status ∨ r.jsonExn = true) :
    (fetch_live_prices_once cfg r).1 = none ∧
    (fetch_live_prices_once cfg r).2 = [Event.priceFetch] ∧
    buildUserMsg (fetch_live_prices_once cfg r).1 =
      "Kérlek készíts napi arany/ezüst összefoglalót magyarul." ∧
    strContainsSub (buildUserMsg (fetch_live_prices_once cfg r).1) "N/A" = false := by
  have hnone : (fetch_live_prices_once cfg r).1 = none ∧
      (fetch_live_prices_once cfg r).2 = [Event.priceFetch] := by
    rcases hfail with h | h | h <;>
      constructor <;> simp [fetch_live_prices_once, hk, h]
  refine ⟨hnone.1, hnone.2, ?_, ?_⟩
  · rw [hnone.1]
    rfl
  · rw [hnone.1]
    decide

/-- Witness for C7 as amended, at a provider whose GET raises. -/
theorem price_fetch_absorbs_witness :
    (fetch_live_prices_once cfgAllSet priceRespRaise).1 = none ∧
    (fetch_live_prices_once cfgAllSet priceRespRaise).2 = [Event.priceFetch] ∧
    buildUserMsg (fetch_live_prices_once cfgAllSet priceRespRaise).1 =
      "Kérlek készíts napi arany/ezüst összefoglalót magyarul." ∧
    strContainsSub (buildUserMsg (fetch_live_prices_once cfgAllSet priceRespRaise).1)
      "N/A" = false :=
  price_fetch_absorbs cfgAllSet priceRespRaise (by decide) (Or.inl (by decide))

/-- Counterexample for C7 as stated: a snapshot whose price fields are null
renders through the f-string as the Python repr "None", and the literal
placeholder "N/A" appears nowhere in the rendered text — the code never
substitutes "N/A" for a missing value. -/
theorem price_placeholder_counterexample :
    strContainsSub
      (buildUserMsg (some [("gold_usd", PyVal.pyNone), ("silver_usd", PyVal.pyNone),
        ("raw", PyVal.pyRawData)])) "gold_usd: None" = true ∧
    strContainsSub
      (buildUserMsg (some [("gold_usd", PyVal.pyNone), ("silver_usd", PyVal.pyNone),
        ("raw", PyVal.pyRawData)])) "N/A" = false := by
  constructor
  · decide
  · decide

/-! ## C9: the plain-text wrap of source lines 176-179 -/

/-- Python str.replace for the two-character pattern of a double newline,
replaced by the paragraph-break markup, scanning left to right without
overlap (first replace of source line 179). -/
def replParas : List Char → List Char
  | [] => []
  | c :: rest =>
    if c = '\n' then
      match rest with
      | c2 :: rest2 =>
        if c2 = '\n' then "</p><p>".toList ++ replParas rest2
        else c :: replParas (c2 :: rest2)
      | [] => [c]
    else c :: replParas rest

/-- Python str.replace of every remaining newline by the line-break markup
(second replace of source line 179). -/
def replBreaks : List Char → List Char
  | [] => []
  | c :: rest => if c = '\n' then "<br/>".toList ++ replBreaks rest else c :: replBreaks rest

/-- The conditional wrap of source lines 176-179: when the first 20
characters contain no markup character, the body is wrapped in a div with
double newlines turned into paragraph breaks and remaining newlines into
line breaks; otherwise the content passes through unchanged. -/
def wrapPlainText (content : String) : String :=
  if !((content.take 20).toList.contains '<') then
    "<div>" ++ String.mk (replBreaks (replParas content.toList)) ++ "</div>"
  else content

/-- Spec-side paragraphizer, written from the spec's words independently of
the two-replace implementation: scanning the text once, a blank line (double
newline) becomes a paragraph break and any other newline becomes a line
break. -/
def specParagraphize : List Char → List Char
  | [] => []
  | c :: rest =>
    if c = '\n' then
      match rest with
      | c2 :: rest2 =>
        if c2 = '\n' then "</p><p>".toList ++ specParagraphize rest2
        else "<br/>".toList ++ specParagraphize (c2 :: rest2)
      | [] => "<br/>".toList
    else c :: specParagraphize rest

theorem replBreaks_append (a b : List Char) :
    replBreaks (a ++ b) = replBreaks a ++ replBreaks b := by
  induction a with
  | nil => rfl
  | cons c t ih => by_cases hc : c = '\n' <;> simp [replBreaks, hc, ih]

theorem replBreaks_paras_lit : replBreaks "</p><p>".toList = "</p><p>".toList := by decide

theorem repl_eq : ∀ l : List Char, replBreaks (replParas l) = specParagraphize l
  | [] => by simp [replParas, replBreaks, specParagraphize]
  | [c] => by
    by_cases hc : c = '\n'
    · subst hc; simp [replParas, replBreaks, specParagraphize]
    · simp [replParas, replBreaks, specParagraphize, hc]
  | c :: c2 :: rest => by
    by_cases hc : c = '\n'
    · subst hc
      by_cases hc2 : c2 = '\n'
      · subst hc2
        have ih := repl_eq rest
        simp [replParas, specParagraphize, replBreaks, replBreaks_append, ih,
          replBreaks_paras_lit]
      · have ih := repl_eq (c2 :: rest)
        simp [replParas, specParagraphize, hc2, replBreaks, ih]
    · have ih := repl_eq (c2 :: rest)
      simp [replParas, specParagraphize, hc, replBreaks, ih]

/-- C9: a generation result with no markup character among its first 20
characters is wrapped into minimal paragraph markup — equal to the spec-side
single-scan paragraphizer under which blank lines become paragraph breaks
and single newlines become line breaks, inside a div — while a result whose
first 20 characters already contain markup passes through unwrapped. -/
theorem plain_text_wrap_normalizes (content : String) :
    ((content.take 20).toList.contains '<' = false →
      wrapPlainText content =
        "<div>" ++ String.mk (specParagraphize content.toList) ++ "</div>") ∧
    ((content.take 20).toList.contains '<' = true → wrapPlainText content = content) := by
  constructor
  · intro h
    unfold wrapPlainText
    rw [h]
    simp [repl_eq]
  · intro h
    unfold wrapPlainText
    rw [h]
    simp

/-- Witness for C9: a plain-text result with one single and one double
newline is wrapped into the expected paragraph markup, and a result opening
with an h1 tag passes through unchanged. -/
theorem plain_text_wrap_normalizes_witness :
    wrapPlainText "a\nb\n\nc" = "<div>a<br/>b</p><p>c</div>" ∧
    wrapPlainText "<h1>x</h1>" = "<h1>x</h1>" := by
  constructor
  · have h := (plain_text_wrap_normalizes "a\nb\n\nc").1 (by decide)
    rw [h]
    decide
  · exact (plain_text_wrap_normalizes "<h1>x</h1>").2 (by decide)

/-! ## C2: the dedented block and module loading (source lines 100-184)

A small surface model of the Python file's statement lines: each carries its
source line number, indentation, and statement kind (with the one name a
condition evaluates, and the name an assignment binds, where that matters).
Comment, docstring and continuation lines do not affect block structure and
are omitted; lines 100-123 (fetch_live_prices, whose returns sit correctly
inside a def) are included so the scanner is exercised on both legal and
illegal returns. -/

inductive PyStmt where
  | decoratorLine (uses : String)
  | defHeader (name : String)
  | ifHeader (condName : String)
  | tryHeader
  | exceptHeader
  | assign (target : String)
  | augAssign (target : String)
  | exprLine
  | raiseLine
  | returnLine
deriving DecidableEq, Repr

structure PyLine where
  lineNo : Nat
  indent : Nat
  stmt : PyStmt
deriving DecidableEq, Repr

/-- The statement lines of source lines 100-184, with their column-0
indentation of line 145 exactly as in the file. -/
def srcLines : List PyLine := [
  ⟨100, 0, .decoratorLine "retry"⟩,
  ⟨101, 0, .defHeader "fetch_live_prices"⟩,
  ⟨107, 4, .ifHeader "METALS_API_KEY"⟩,
  ⟨108, 8, .exprLine⟩,
  ⟨109, 8, .returnLine⟩,
  ⟨110, 4, .assign "params"⟩,
  ⟨111, 4, .tryHeader⟩,
  ⟨112, 8, .assign "r"⟩,
  ⟨113, 8, .exprLine⟩,
  ⟨114, 8, .assign "data"⟩,
  ⟨116, 8, .ifHeader "data"⟩,
  ⟨117, 12, .assign "rates"⟩,
  ⟨118, 12, .returnLine⟩,
  ⟨120, 8, .returnLine⟩,
  ⟨121, 4, .exceptHeader⟩,
  ⟨122, 8, .exprLine⟩,
  ⟨123, 8, .returnLine⟩,
  ⟨126, 0, .decoratorLine "retry"⟩,
  ⟨127, 0, .defHeader "generate_newsletter_html"⟩,
  ⟨132, 4, .ifHeader "OPENAI_API_KEY"⟩,
  ⟨133, 8, .raiseLine⟩,
  ⟨135, 4, .assign "system_prompt"⟩,
  ⟨144, 4, .assign "user_msg"⟩,
  ⟨145, 0, .ifHeader "live_prices"⟩,
  ⟨147, 4, .assign "price_text"⟩,
  ⟨148, 4, .augAssign "user_msg"⟩,
  ⟨152, 4, .assign "payload"⟩,
  ⟨161, 4, .assign "headers"⟩,
  ⟨165, 4, .assign "resp"⟩,
  ⟨166, 4, .exprLine⟩,
  ⟨167, 4, .assign "data"⟩,
  ⟨169, 4, .assign "content"⟩,
  ⟨170, 4, .tryHeader⟩,
  ⟨171, 8, .assign "content"⟩,
  ⟨172, 4, .exceptHeader⟩,
  ⟨174, 8, .assign "content"⟩,
  ⟨177, 4, .ifHeader "content"⟩,
  ⟨179, 8, .assign "content"⟩,
  ⟨182, 4, .assign "footer"⟩,
  ⟨183, 4, .assign "html"⟩,
  ⟨184, 4, .returnLine⟩]

/-- Scan for a return statement outside every def, maintaining the stack of
indentations of the currently open def headers: a line whose indentation is
not greater than a def header's indentation closes that def's body. -/
def scanReturnOutside : List Nat → List PyLine → Bool
  | _, [] => false
  | stack, l :: rest =>
    let stack' := stack.filter (fun d => d < l.indent)
    match l.stmt with
    | .returnLine => if stack' = [] then true else scanReturnOutside stack' rest
    | .defHeader _ => scanReturnOutside (l.indent :: stack') rest
    | _ => scanReturnOutside stack' rest

/-- Whether the file contains a return statement at module scope, which
CPython rejects when compiling the file, before executing anything. -/
def returnOutsideDef (lines : List PyLine) : Bool := scanReturnOutside [] lines

/-- The source line number of the last line belonging to the body of the
named def: the maximal run of more-indented lines after its header. -/
def defBodyLastLine (lines : List PyLine) (name : String) : Option Nat :=
  match lines with
  | [] => none
  | l :: rest =>
    match l.stmt with
    | .defHeader n =>
      if n = name then ((rest.takeWhile (fun x => l.indent < x.indent)).getLast?).map (·.lineNo)
      else defBodyLastLine rest name
    | _ => defBodyLastLine rest name

/-- Were the file to compile, execute the module-scope (indentation-0)
statements in order against an environment of bound names: a def or an
assignment binds its name, and a decorator or if condition that evaluates an
unbound name is the first NameError.  Returns the first unbound name
reached, if any. -/
def moduleExecFirstUnbound (env : List String) : List PyLine → Option String
  | [] => none
  | l :: rest =>
    if l.indent ≠ 0 then moduleExecFirstUnbound env rest
    else
      match l.stmt with
      | .defHeader n => moduleExecFirstUnbound (n :: env) rest
      | .assign t => moduleExecFirstUnbound (t :: env) rest
      | .decoratorLine u =>
        if env.contains u then moduleExecFirstUnbound env rest else some u
      | .ifHeader c =>
        if env.contains c then moduleExecFirstUnbound env rest else some c
      | _ => moduleExecFirstUnbound env rest

/-- Outcome of loading the module: CPython first compiles the whole file
(a module-scope return is a compile-time error and nothing runs), and only
then executes the module scope, where an unbound name raises NameError. -/
inductive LoadResult where
  | loaded
  | compileError
  | nameError (unbound : String)
deriving DecidableEq, Repr

def loadModule (env : List String) (lines : List PyLine) : LoadResult :=
  if returnOutsideDef lines then .compileError
  else
    match moduleExecFirstUnbound env lines with
    | some n => .nameError n
    | none => .loaded

/-- The module-scope names bound by source lines 54-79, before line 100:
imports and configuration constants, including the retry decorator. -/
def preamble : List String :=
  ["os", "time", "json", "logging", "Optional", "requests", "DEBUG", "log",
   "OPENAI_API_KEY", "MAILERLITE_API_KEY", "MAILERLITE_GROUP_ID",
   "MAILERLITE_SUBSCRIBER_EMAIL", "SENDER_EMAIL", "SENDER_NAME", "MODEL",
   "METALS_API_KEY", "METALS_API_URL", "MAILERLITE_BASE", "retry"]

/-- C2, amended: the dedent at line 145 ends the body of
generate_newsletter_html at line 144 and places lines 145-184 at module
scope; but because line 184 is then a return statement outside any function,
loading the module fails at compile time (SyntaxError), so no module-scope
code ever executes and no NameError is raised — although the unbound name
the module-scope code would have evaluated first is indeed live_prices. -/
theorem dedent_makes_module_unloadable :
    defBodyLastLine srcLines "generate_newsletter_html" = some 144 ∧
    returnOutsideDef srcLines = true ∧
    loadModule preamble srcLines = LoadResult.compileError ∧
    moduleExecFirstUnbound preamble srcLines = some "live_prices" := by
  refine ⟨by decide, by decide, by decide, by decide⟩

/-- Counterexample for C2 as stated: loading the module does not raise
NameError — it fails earlier, at compile time, because of the module-scope
return of line 184. -/
theorem module_load_not_nameerror :
    loadModule preamble srcLines = LoadResult.compileError ∧
    loadModule preamble srcLines ≠ LoadResult.nameError "live_prices" := by
  refine ⟨by decide, by decide⟩
